import Mathlib

/-!
Shallow embedding of the StudySync leaderboard aggregation and LeetCode
submission-verification logic.

Modelling conventions:
* JavaScript numbers that hold scores or epoch timestamps are modelled as `Int`.
  The client code compares ISO-8601 timestamp strings produced by
  `Date.toISOString()`; for such fixed-width strings lexicographic order agrees
  with chronological order, so timestamps are compared as integers.
* JavaScript `x || d` on an optional number (`undefined` and `0` are falsy) is
  `jsOrInt`; on an optional string (`undefined` and `""` are falsy) it is
  `jsOrStr` applied after `Option.getD ""`.
* `async` functions that can throw are modelled as functions consuming the
  outcome of each awaited call as an `Except JsError _` argument; a function
  whose JS body catches all errors and returns a plain object is modelled with
  a plain (non-`Except`) result type, which captures that it never throws.
* `Array.prototype.sort(cmp)` with comparator `(a, b) => b.score - a.score` is
  modelled as a comparison sort (`List.insertionSort`) for the relation
  `b.score ≤ a.score`; the source guarantees only a correctly sorted result.
* `String.prototype.split(sep)` for a non-empty separator is `jsSplit`,
  implemented by structural recursion so that it evaluates inside the kernel.
-/

/-- JS `v || d` for an optional number: `undefined` and `0` are falsy. -/
def jsOrInt (v : Option Int) (d : Int) : Int :=
  match v with
  | none => d
  | some x => if x = 0 then d else x

/-- JS `s || d` for a string: the empty string is falsy. -/
def jsOrStr (s d : String) : String :=
  if s = "" then d else s

/-- Drop `sep` from the front of `l` when it is a prefix. -/
def dropSep (sep l : List Char) : List Char :=
  List.drop sep.length l

/-- Fuel-driven worker for `jsSplit`; `fuel` bounds the recursion depth and is
always instantiated with the length of the string being split, which suffices
for a non-empty separator. -/
def jsSplitGo (sep : List Char) : Nat → List Char → List (List Char)
  | _, [] => [[]]
  | 0, l => [l]
  | Nat.succ fuel, c :: cs =>
    if sep ≠ [] && List.isPrefixOf sep (c :: cs) then
      [] :: jsSplitGo sep fuel (dropSep sep (c :: cs))
    else
      match jsSplitGo sep fuel cs with
      | [] => [[c]]
      | g :: gs => (c :: g) :: gs

/-- JS `s.split(sep)` for a non-empty separator `sep`. -/
def jsSplit (s sep : String) : List String :=
  (jsSplitGo sep.toList s.toList.length s.toList).map (fun cs => String.mk cs)

/-! ## External verification service: data shapes

The LeetCode GraphQL responses consumed by the verifier.  Only the fields the
code reads are modelled; `matchedUser` is represented by its `username`. -/

/-- One entry of `recentSubmissionList` (query `GET_RECENT_SUBMISSIONS`). -/
structure RecentSubmission where
  id : String
  title : String
  titleSlug : String
  timestamp : String
  statusDisplay : String
  lang : String
  deriving DecidableEq, Repr

/-- The `question` object returned by `GET_USER_PROBLEM_STATUS`; `status` is
`null` (not attempted), `"ac"` or `"notac"`. -/
structure Question where
  questionId : String
  title : String
  titleSlug : String
  difficulty : String
  status : Option String
  deriving DecidableEq, Repr

/-- Data of a successful `GET_USER_PROBLEM_STATUS` query. -/
structure UserProblemData where
  matchedUser : Option String
  question : Option Question
  deriving DecidableEq, Repr

/-- Data of a successful `GET_RECENT_SUBMISSIONS` query; the list itself may be
`null`, which the code replaces by `[]`. -/
structure RecentData where
  recentSubmissionList : Option (List RecentSubmission)
  deriving DecidableEq, Repr

/-- A thrown JS error, reduced to its `message`. -/
structure JsError where
  message : String
  deriving DecidableEq, Repr

namespace LC5
/-!
The revision of `lib/graphql.ts` preserved as the second document of
`src/unnamed/part_005` (lines 1151–1293): `checkProblemStatus` requires BOTH
the lifetime `"ac"` status and a recent `"Accepted"` submission.
-/

/-- Result shape of `checkProblemStatus`.  The `error` field is present (JS
`'error' in result`) exactly when it is `some`. -/
structure CheckResult where
  problem : Option Question
  user : Option String
  solved : Bool
  error : Option String
  recentSubmissions : List RecentSubmission
  deriving DecidableEq, Repr

/-- Function `checkProblemStatus` of `part_005`: throws on empty inputs, propagates
query errors, returns a not-found record when the question is `null`, and
otherwise conjoins the lifetime status with a recent accepted submission. -/
def checkProblemStatus (username titleSlug : String)
    (resp : Except JsError UserProblemData)
    (recentResp : Except JsError RecentData) : Except JsError CheckResult :=
  if username = "" || titleSlug = "" then
    .error { message := "Username and problem titleSlug are required" }
  else
    match resp with
    | .error e => .error e
    | .ok data =>
      match recentResp with
      | .error e => .error e
      | .ok recentData =>
        match data.question with
        | none =>
          .ok { problem := none
                user := data.matchedUser
                solved := false
                error := some ("Problem \"" ++ titleSlug ++ "\" not found on LeetCode")
                recentSubmissions := [] }
        | some q =>
          let recentSubmissions := recentData.recentSubmissionList.getD []
          let relevantSubmissions :=
            recentSubmissions.filter (fun s => s.titleSlug == titleSlug)
          let hasAcceptedSubmission :=
            relevantSubmissions.any (fun s => s.statusDisplay == "Accepted")
          let problemSolved := (q.status == some "ac") && hasAcceptedSubmission
          .ok { problem := some q
                user := data.matchedUser
                solved := problemSolved
                error := none
                recentSubmissions := relevantSubmissions }

/-- The `problem` projection placed in the verification result. -/
structure ProblemInfo where
  id : String
  title : String
  titleSlug : String
  difficulty : String
  deriving DecidableEq, Repr

/-- One accepted submission as projected into the verification result. -/
structure SubmissionInfo where
  id : String
  title : String
  timestamp : String
  language : String
  deriving DecidableEq, Repr

/-- The typed result object of `verifyLeetCodeCompletion`. -/
structure VerifyResult where
  verified : Bool
  error : Option String
  problem : Option ProblemInfo
  username : Option String
  submissions : List SubmissionInfo
  deriving DecidableEq, Repr

/-- Function `verifyLeetCodeCompletion` of `part_005`: guards missing inputs, calls
`checkProblemStatus`, maps its error shape and its thrown errors to
`verified := false` results, and otherwise projects the success shape.  The
non-`Except` result type records that the function never throws. -/
def verifyLeetCodeCompletion (username problemTitleSlug : String)
    (resp : Except JsError UserProblemData)
    (recentResp : Except JsError RecentData) : VerifyResult :=
  if username = "" || problemTitleSlug = "" then
    { verified := false
      error := some "Missing username or problem identifier"
      problem := none, username := none, submissions := [] }
  else
    match checkProblemStatus username problemTitleSlug resp recentResp with
    | .error e =>
      { verified := false
        error := some (jsOrStr e.message "Failed to verify completion")
        problem := none, username := none, submissions := [] }
    | .ok result =>
      if result.error.isSome then
        { verified := false
          error := result.error
          problem := none, username := none, submissions := [] }
      else
        { verified := result.solved
          error := none
          problem := result.problem.map (fun q =>
            { id := q.questionId, title := q.title
              titleSlug := q.titleSlug, difficulty := q.difficulty })
          username := result.user
          submissions :=
            (result.recentSubmissions.filter
                (fun s => s.statusDisplay == "Accepted")).map
              (fun s => { id := s.id, title := s.title
                          timestamp := s.timestamp, language := s.lang }) }

end LC5

namespace LCC
/-!
The first revision of `client/src/lib/graphql.ts` (lines 1–161):
`checkProblemStatus` decides `solved` from the recent-submission list alone,
ignoring the lifetime question status, and has no not-found branch.
-/

/-- Result shape of the client revision's `checkProblemStatus`. -/
structure CheckResult where
  problem : Option Question
  user : Option String
  solved : Bool
  recentSubmissions : List RecentSubmission
  deriving DecidableEq, Repr

/-- Function `checkProblemStatus` of the client revision: `solved` holds when some
recent entry matches the slug with `statusDisplay = "Accepted"`. -/
def checkProblemStatus (username titleSlug : String)
    (resp : Except JsError UserProblemData)
    (recentResp : Except JsError RecentData) : Except JsError CheckResult :=
  if username = "" || titleSlug = "" then
    .error { message := "Username and problem titleSlug are required" }
  else
    match resp with
    | .error e => .error e
    | .ok data =>
      match recentResp with
      | .error e => .error e
      | .ok recentData =>
        let recentSubmissions := recentData.recentSubmissionList.getD []
        let problemSolved := recentSubmissions.any
          (fun s => s.titleSlug == titleSlug && s.statusDisplay == "Accepted")
        .ok { problem := data.question
              user := data.matchedUser
              solved := problemSolved
              recentSubmissions := recentSubmissions }

/-- The typed result object of the client revision's
`verifyLeetCodeCompletion`. -/
structure VerifyResult where
  verified : Bool
  error : Option String
  problem : Option Question
  username : Option String
  submissions : List RecentSubmission
  deriving DecidableEq, Repr

/-- Function `verifyLeetCodeCompletion` of the client revision. -/
def verifyLeetCodeCompletion (username problemTitleSlug : String)
    (resp : Except JsError UserProblemData)
    (recentResp : Except JsError RecentData) : VerifyResult :=
  if username = "" || problemTitleSlug = "" then
    { verified := false
      error := some "Missing username or problem identifier"
      problem := none, username := none, submissions := [] }
  else
    match checkProblemStatus username problemTitleSlug resp recentResp with
    | .error e =>
      { verified := false
        error := some (jsOrStr e.message "Failed to verify completion")
        problem := none, username := none, submissions := [] }
    | .ok result =>
      { verified := result.solved
        error := none
        problem := result.problem
        username := result.user
        submissions := result.recentSubmissions.filter
          (fun s => s.titleSlug == problemTitleSlug) }

end LCC

namespace TaskDetails
/-!
The `verifyLeetCodeSubmission` handler of `client/src/pages/TaskDetails.tsx`
(first document, lines 160–231).  The handler's inputs are the user's stored
LeetCode handle, the task's resource link, and — when the flow reaches the
service — the result the verification service would return; the model records
the final verification-panel state, whether the service was called, whether a
toast was shown, and the auto-filled comment.
-/

/-- JS `resourceLink.split("/problems/")[1]?.split("/")[0]`: `none` when the
marker is absent, otherwise the (possibly empty) path segment after it. -/
def extractProblemSlug (resourceLink : String) : Option String :=
  match (jsSplit resourceLink "/problems/").get? 1 with
  | none => none
  | some rest => some ((jsSplit rest "/").headD "")

/-- The `leetCodeVerification` state of the page. -/
structure VerificationState where
  status : String
  message : String
  deriving DecidableEq, Repr

/-- Observable outcome of one run of the handler. -/
structure FlowResult where
  state : VerificationState
  serviceCalled : Bool
  toastShown : Bool
  filledComments : Option String
  deriving DecidableEq, Repr

/-- The invalid-link message set when no non-empty slug can be extracted. -/
def invalidLinkMessage : String :=
  "Invalid LeetCode problem link. It should contain '/problems/problem-slug/'"

/-- Handler `verifyLeetCodeSubmission`: guards the handle, extracts the slug from the
link (`task.resourceLink || ""`), fails fast on a falsy slug, and otherwise
branches on the service result.  `userHandle` is `userProfile.leetCodeUsername`
and `serviceResult` is what `verifyLeetCodeCompletion` would return. -/
def verifyLeetCodeSubmission (userHandle : Option String)
    (resourceLink : Option String) (serviceResult : LC5.VerifyResult) :
    FlowResult :=
  if (userHandle.getD "") = "" then
    { state := { status := "idle", message := "" }
      serviceCalled := false, toastShown := true, filledComments := none }
  else
    let link := resourceLink.getD ""
    let problemSlug := extractProblemSlug link
    if (problemSlug.getD "") = "" then
      { state := { status := "error", message := invalidLinkMessage }
        serviceCalled := false, toastShown := false, filledComments := none }
    else
      if serviceResult.verified then
        let title := (serviceResult.problem.map (fun p => p.title)).getD "undefined"
        let difficulty :=
          (serviceResult.problem.map (fun p => p.difficulty)).getD "undefined"
        { state :=
            { status := "success"
              message := "Verified! You've completed \"" ++ title ++
                "\" on LeetCode. Click submit to record your completion." }
          serviceCalled := true
          toastShown := false
          filledComments := some ("Successfully solved \"" ++ title ++ "\" (" ++
            difficulty ++ " difficulty) on LeetCode.") }
      else
        let errorMessage :=
          if (serviceResult.error.getD "") ≠ "" then serviceResult.error.getD ""
          else if serviceResult.problem.isSome then
            "Could not verify completion of \"" ++
              ((serviceResult.problem.map (fun p => p.title)).getD "undefined") ++
              "\". Make sure you've solved this problem recently on LeetCode."
          else
            "Could not verify LeetCode submission. Try solving the problem first."
        { state := { status := "error", message := errorMessage }
          serviceCalled := true, toastShown := false, filledComments := none }

end TaskDetails

namespace ClientLB
/-!
The client leaderboard aggregation: `fetchLeaderboardData` of the second
document of `client/src/pages/Leaderboard.tsx` (lines 297–391 of the file).
The Firestore reads become list arguments: `tasks` plays the `tasks`
collection, `subs` the `task_submissions` collection and `users` the `users`
collection.  The returned `Nat` counts the submissions queries issued.
`monthlyStart` stands for the value `new Date()` adjusted by
`setMonth(getMonth() - 1)`; civil-calendar arithmetic is orthogonal to every
property below, so the theorems quantify over it.
-/

/-- A document of the `tasks` collection (`id` is the document id). -/
structure TaskRec where
  id : String
  groupId : String
  deriving DecidableEq, Repr

/-- A document of the `task_submissions` collection.  `submittedAt` is the
epoch-milliseconds reading of the stored ISO timestamp. -/
structure SubmissionRec where
  userId : Int
  taskId : String
  score : Option Int
  submittedAt : Int
  status : String
  deriving DecidableEq, Repr

/-- A document of the `users` collection. -/
structure UserRec where
  id : Int
  name : String
  email : String
  username : Option String
  avatar : Option String
  deriving DecidableEq, Repr

/-- The user projection stored in a leaderboard entry. -/
structure LBUser where
  id : Int
  name : String
  email : String
  username : String
  avatar : Option String
  deriving DecidableEq, Repr

/-- One leaderboard entry (a value of the `userScores` record). -/
structure LBEntry where
  score : Int
  user : LBUser
  deriving DecidableEq, Repr

/-- One day in milliseconds. -/
def dayMs : Int := 86400000

/-- JS `usersMap.get(userId.toString())`: the `Map` built with `set` keeps the
last record written for an id, and `toString` is injective on ids. -/
def lookupUser (users : List UserRec) (uid : Int) : Option UserRec :=
  users.reverse.find? (fun u => u.id == uid)

/-- The user fields copied into a fresh leaderboard entry;
`user.username || user.email.split('@')[0]`. -/
def projectUser (u : UserRec) : LBUser :=
  { id := u.id, name := u.name, email := u.email
    username := jsOrStr (u.username.getD "") ((jsSplit u.email "@").headD "")
    avatar := u.avatar }

/-- The lower bound `startDate` computed for a timeframe: `weekly` is seven
days before `now`, `monthly` is the calendar subtraction passed in as
`monthlyStart`, anything else leaves `new Date(0)`. -/
def startDate (timeframe : String) (now monthlyStart : Int) : Int :=
  if timeframe == "weekly" then now - 7 * dayMs
  else if timeframe == "monthly" then monthlyStart
  else 0

/-- Whether a submission is returned by the submissions query: its task is in
the group's task-id set, and unless the timeframe is `all`, its timestamp is
at least `startDate`. -/
def submissionFetched (timeframe : String) (now monthlyStart : Int)
    (taskIds : List String) (s : SubmissionRec) : Bool :=
  taskIds.contains s.taskId &&
    (timeframe == "all" || decide (startDate timeframe now monthlyStart ≤ s.submittedAt))

/-- JS `submission.score || 10`: the default score when none is specified. -/
def contribution (s : SubmissionRec) : Int := jsOrInt s.score 10

/-- Lookup in the insertion-ordered `userScores` record. -/
def lookupEntry : List (Int × LBEntry) → Int → Option LBEntry
  | [], _ => none
  | (k, e) :: rest, uid => if k == uid then some e else lookupEntry rest uid

/-- JS `userScores[userId].score += taskScore`: bump the first entry with the
given key. -/
def bumpEntry : List (Int × LBEntry) → Int → Int → List (Int × LBEntry)
  | [], _, _ => []
  | (k, e) :: rest, uid, d =>
    if k == uid then (k, { e with score := e.score + d }) :: rest
    else (k, e) :: bumpEntry rest uid d

/-- The body of the submission-processing loop: a first submission for a user
creates their entry only when the user exists in `usersMap`; later submissions
add to the running total. -/
def addSubmission (users : List UserRec) (acc : List (Int × LBEntry))
    (s : SubmissionRec) : List (Int × LBEntry) :=
  let taskScore := contribution s
  match lookupEntry acc s.userId with
  | some _ => bumpEntry acc s.userId taskScore
  | none =>
    match lookupUser users s.userId with
    | some u => acc ++ [(s.userId, { score := taskScore, user := projectUser u })]
    | none => acc

/-- The whole `for (const doc of submissionsSnapshot.docs)` fold. -/
def processSubmissions (users : List UserRec) (subs : List SubmissionRec) :
    List (Int × LBEntry) :=
  subs.foldl (addSubmission users) []

/-- The sort order of `(a, b) => b.score - a.score`. -/
def scoreGe (a b : LBEntry) : Prop := b.score ≤ a.score

instance : DecidableRel scoreGe :=
  fun a b => inferInstanceAs (Decidable (b.score ≤ a.score))

/-- Function `fetchLeaderboardData`: collect the group's task ids, short-circuit when
there are none, fetch the submissions matching the task set and timeframe,
fold them into per-user scores, and sort descending.  The second component
counts submissions queries issued. -/
def fetchLeaderboardData (groupId timeframe : String) (now monthlyStart : Int)
    (tasks : List TaskRec) (subs : List SubmissionRec) (users : List UserRec) :
    List LBEntry × Nat :=
  let taskIds := (tasks.filter (fun t => t.groupId == groupId)).map (fun t => t.id)
  if taskIds.isEmpty then ([], 0)
  else
    let fetched := subs.filter (submissionFetched timeframe now monthlyStart taskIds)
    let userScores := processSubmissions users fetched
    (List.insertionSort scoreGe (userScores.map Prod.snd), 1)

/-- Sum of the scores of a leaderboard. -/
def sumScores (l : List LBEntry) : Int := (l.map (fun e => e.score)).sum

end ClientLB

namespace ServerLB
/-!
The server leaderboard: `FirestoreStorage.getLeaderboard` of
`server/firestore.ts` (lines 400–448).  The member list (with its joined user
payload, kept abstract as `α`), the `tasks` collection and the
`task_submissions` collection are arguments; the returned `Nat` counts the
submissions queries issued (one per member in the scoring loop). -/

/-- A task document of the server schema. -/
structure TaskS where
  id : Int
  groupId : Int
  deriving DecidableEq, Repr

/-- A task-submission document of the server schema. -/
structure SubmissionS where
  userId : Int
  taskId : Int
  score : Option Int
  status : String
  deriving DecidableEq, Repr

/-- A group membership joined with its user payload. -/
structure MemberS (α : Type) where
  userId : Int
  user : α
  deriving DecidableEq, Repr

/-- One `{ user, score }` leaderboard entry. -/
structure EntryS (α : Type) where
  user : α
  score : Int
  deriving DecidableEq, Repr

/-- JS `submission.score || 1`: the server default when no score is specified. -/
def submissionPoints (s : SubmissionS) : Int := jsOrInt s.score 1

/-- The score accumulated for one member: the query filters their completed
submissions, the loop adds `score || 1` for those whose task is in the group's
task set. -/
def memberScore (taskIds : List Int) (subs : List SubmissionS) (uid : Int) : Int :=
  ((subs.filter (fun s => s.userId == uid && s.status == "completed")).filter
      (fun s => taskIds.contains s.taskId)).foldl
    (fun total s => total + submissionPoints s) 0

/-- The sort order of `(a, b) => b.score - a.score`. -/
def scoreGeS {α : Type} (a b : EntryS α) : Prop := b.score ≤ a.score

instance {α : Type} : DecidableRel (scoreGeS (α := α)) :=
  fun a b => inferInstanceAs (Decidable (b.score ≤ a.score))

/-- Function `getLeaderboard`: with no tasks in the group it returns every member at
score 0 without querying submissions; otherwise it scores each member over
the group's task set and sorts descending. -/
def getLeaderboard {α : Type} (groupId : Int) (members : List (MemberS α))
    (tasks : List TaskS) (subs : List SubmissionS) : List (EntryS α) × Nat :=
  let groupTasks := tasks.filter (fun t => t.groupId == groupId)
  if groupTasks.isEmpty then
    (members.map (fun m => { user := m.user, score := 0 }), 0)
  else
    let taskIds := groupTasks.map (fun t => t.id)
    let entries := members.map
      (fun m => { user := m.user, score := memberScore taskIds subs m.userId })
    (List.insertionSort scoreGeS entries, members.length)

/-- Sum of the scores of a server leaderboard. -/
def sumScoresS {α : Type} (l : List (EntryS α)) : Int :=
  (l.map (fun e => e.score)).sum

end ServerLB

/-! ## Helper lemmas -/

/-- The `part_005` `checkProblemStatus` on successful queries with an existing
question: the result record made explicit. -/
theorem LC5.checkProblemStatus_ok (username titleSlug : String)
    (mu : Option String) (q : Question) (recentList : Option (List RecentSubmission))
    (h1 : username ≠ "") (h2 : titleSlug ≠ "") :
    LC5.checkProblemStatus username titleSlug
        (.ok { matchedUser := mu, question := some q })
        (.ok { recentSubmissionList := recentList }) =
      .ok { problem := some q
            user := mu
            solved := (q.status == some "ac") &&
              ((recentList.getD []).filter (fun s => s.titleSlug == titleSlug)).any
                (fun s => s.statusDisplay == "Accepted")
            error := none
            recentSubmissions :=
              (recentList.getD []).filter (fun s => s.titleSlug == titleSlug) } := by
  unfold LC5.checkProblemStatus
  simp [h1, h2]

/-- C1 (corrected): in the `part_005` revision, for every handle and slug and
every successful service response in which the problem exists, the verifier
returns `verified = true` exactly when the lifetime problem status is `"ac"`
and at least one recent-submission entry for the target slug has
`statusDisplay = "Accepted"`. -/
theorem C1_part005_verified_iff_conjunction (username titleSlug : String)
    (mu : Option String) (q : Question)
    (recentList : Option (List RecentSubmission))
    (h1 : username ≠ "") (h2 : titleSlug ≠ "") :
    (LC5.verifyLeetCodeCompletion username titleSlug
        (.ok { matchedUser := mu, question := some q })
        (.ok { recentSubmissionList := recentList })).verified = true ↔
      (q.status = some "ac" ∧
        ∃ s ∈ recentList.getD [],
          s.titleSlug = titleSlug ∧ s.statusDisplay = "Accepted") := by
  unfold LC5.verifyLeetCodeCompletion
  rw [LC5.checkProblemStatus_ok username titleSlug mu q recentList h1 h2]
  simp [h1, h2, List.any_eq_true, List.mem_filter]

/-- The two-sum question with lifetime status `"ac"`, for concrete runs. -/
def twoSumSolved : Question :=
  { questionId := "1", title := "Two Sum", titleSlug := "two-sum", difficulty := "Easy", status := some "ac" }

/-- The two-sum question never attempted (`status = null`), for concrete runs. -/
def twoSumUnattempted : Question :=
  { questionId := "1", title := "Two Sum", titleSlug := "two-sum", difficulty := "Easy", status := none }

/-- A recent accepted submission for two-sum, for concrete runs. -/
def twoSumAccepted : RecentSubmission :=
  { id := "10", title := "Two Sum", titleSlug := "two-sum", timestamp := "1700000000", statusDisplay := "Accepted", lang := "python3" }

/-- C1 witness: a concrete run of the `part_005` verifier in which both
conditions hold and `verified = true` follows from the theorem. -/
theorem C1_witness :
    (LC5.verifyLeetCodeCompletion "alice123" "two-sum"
        (.ok { matchedUser := some "alice123", question := some twoSumSolved })
        (.ok { recentSubmissionList := some [twoSumAccepted] })).verified = true :=
  (C1_part005_verified_iff_conjunction "alice123" "two-sum" (some "alice123")
      twoSumSolved (some [twoSumAccepted])
      (by decide) (by decide)).mpr (by decide)

/-- C1 counterexample: the client revision of `verifyLeetCodeCompletion`
returns `verified = true` on an input whose lifetime problem status is not
`"ac"`, so the claim's "exactly when both conditions hold" fails on the code
as a whole. -/
theorem C1_counterexample :
    (LCC.verifyLeetCodeCompletion "alice123" "two-sum"
        (.ok { matchedUser := some "alice123", question := some twoSumUnattempted })
        (.ok { recentSubmissionList := some [twoSumAccepted] })).verified = true ∧
    ((LCC.verifyLeetCodeCompletion "alice123" "two-sum"
        (.ok { matchedUser := some "alice123", question := some twoSumUnattempted })
        (.ok { recentSubmissionList := some [twoSumAccepted] })).problem.map
      (fun q => q.status)).getD none ≠ some "ac" := by
  decide

/-- C5: under the `weekly` timeframe the client aggregator fetches exactly the
submissions of the group's tasks whose timestamp is at least `now` minus seven
days; a submission dated eight days before `now` is excluded and one dated six
days before `now` is included. -/
theorem C5_weekly_window (now monthlyStart : Int) (taskIds : List String)
    (s8 s6 : ClientLB.SubmissionRec)
    (h8 : taskIds.contains s8.taskId = true)
    (ht8 : s8.submittedAt = now - 8 * ClientLB.dayMs)
    (h6 : taskIds.contains s6.taskId = true)
    (ht6 : s6.submittedAt = now - 6 * ClientLB.dayMs) :
    ClientLB.submissionFetched "weekly" now monthlyStart taskIds s8 = false ∧
    ClientLB.submissionFetched "weekly" now monthlyStart taskIds s6 = true ∧
    (∀ s : ClientLB.SubmissionRec,
      ClientLB.submissionFetched "weekly" now monthlyStart taskIds s = true ↔
        (taskIds.contains s.taskId = true ∧
          now - 7 * ClientLB.dayMs ≤ s.submittedAt)) := by
  have hww : (("weekly" : String) == "weekly") = true := by decide
  have hwa : (("weekly" : String) == "all") = false := by decide
  have hiff : ∀ s : ClientLB.SubmissionRec,
      ClientLB.submissionFetched "weekly" now monthlyStart taskIds s = true ↔
        (taskIds.contains s.taskId = true ∧
          now - 7 * ClientLB.dayMs ≤ s.submittedAt) := by
    intro s
    unfold ClientLB.submissionFetched ClientLB.startDate
    simp [hww, hwa]
  refine ⟨?_, ?_, hiff⟩
  · rcases Bool.eq_false_or_eq_true
      (ClientLB.submissionFetched "weekly" now monthlyStart taskIds s8) with h | h
    · exfalso
      have hle := ((hiff s8).mp h).2
      rw [ht8] at hle
      unfold ClientLB.dayMs at hle
      omega
    · exact h
  · refine (hiff s6).mpr ⟨h6, ?_⟩
    rw [ht6]
    unfold ClientLB.dayMs
    omega

/-- C5 witness: the theorem applied to two concrete submissions eight and six
days old. -/
theorem C5_witness :
    ClientLB.submissionFetched "weekly" 1000000000000 0 ["t1"]
      { userId := 1, taskId := "t1", score := none,
        submittedAt := 1000000000000 - 8 * 86400000, status := "completed" } = false ∧
    ClientLB.submissionFetched "weekly" 1000000000000 0 ["t1"]
      { userId := 1, taskId := "t1", score := none,
        submittedAt := 1000000000000 - 6 * 86400000, status := "completed" } = true := by
  have h := C5_weekly_window 1000000000000 0 ["t1"]
    { userId := 1, taskId := "t1", score := none,
      submittedAt := 1000000000000 - 8 * 86400000, status := "completed" }
    { userId := 1, taskId := "t1", score := none,
      submittedAt := 1000000000000 - 6 * 86400000, status := "completed" }
    (by decide) (by decide) (by decide) (by decide)
  exact ⟨h.1, h.2.1⟩

/-- C6: whenever both service queries succeed and the service reports no such
problem (`question = null`), the `part_005` verifier returns — rather than
throws — a result with `verified = false` and the not-found error message,
for every handle (the matched-user payload is arbitrary). -/
theorem C6_not_found_reason (username slug : String) (mu : Option String)
    (r : RecentData) (h1 : username ≠ "") (h2 : slug ≠ "") :
    (LC5.verifyLeetCodeCompletion username slug
        (.ok { matchedUser := mu, question := none }) (.ok r)).verified = false ∧
    (LC5.verifyLeetCodeCompletion username slug
        (.ok { matchedUser := mu, question := none }) (.ok r)).error =
      some ("Problem \"" ++ slug ++ "\" not found on LeetCode") := by
  unfold LC5.verifyLeetCodeCompletion LC5.checkProblemStatus
  simp [h1, h2]

/-- C6 witness: the theorem applied to a concrete unknown slug. -/
theorem C6_witness :
    (LC5.verifyLeetCodeCompletion "alice123" "no-such-problem"
        (.ok { matchedUser := some "alice123", question := none })
        (.ok { recentSubmissionList := none })).verified = false ∧
    (LC5.verifyLeetCodeCompletion "alice123" "no-such-problem"
        (.ok { matchedUser := some "alice123", question := none })
        (.ok { recentSubmissionList := none })).error =
      some "Problem \"no-such-problem\" not found on LeetCode" :=
  C6_not_found_reason "alice123" "no-such-problem" (some "alice123")
    { recentSubmissionList := none } (by decide) (by decide)

/-- C7: when the user has a handle but the resource link yields no non-empty
path segment after `/problems/`, the task-details handler sets the error state
with the invalid-link message and returns without calling the verification
service. -/
theorem C7_invalid_link_fails_fast (userHandle resourceLink : Option String)
    (res : LC5.VerifyResult)
    (hHandle : userHandle.getD "" ≠ "")
    (hNoSlug : (TaskDetails.extractProblemSlug (resourceLink.getD "")).getD "" = "") :
    TaskDetails.verifyLeetCodeSubmission userHandle resourceLink res =
      { state := { status := "error", message := TaskDetails.invalidLinkMessage }
        serviceCalled := false, toastShown := false, filledComments := none } := by
  unfold TaskDetails.verifyLeetCodeSubmission
  simp [hHandle, hNoSlug]

/-- C7 witness: the theorem applied to a link without a `/problems/` marker. -/
theorem C7_witness :
    TaskDetails.verifyLeetCodeSubmission (some "alice123")
      (some "https://leetcode.com/tag/array/")
      { verified := false, error := none, problem := none,
        username := none, submissions := [] } =
      { state := { status := "error", message := TaskDetails.invalidLinkMessage }
        serviceCalled := false, toastShown := false, filledComments := none } :=
  C7_invalid_link_fails_fast (some "alice123")
    (some "https://leetcode.com/tag/array/")
    { verified := false, error := none, problem := none,
      username := none, submissions := [] }
    (by decide) (by decide)

/-- C9: a submission whose score is present but `0` is scored like one with no
score at all — the JS falsy default — so the client adds 10 and the server
adds 1 rather than 0. -/
theorem C9_zero_score_gets_default (users : List ClientLB.UserRec)
    (acc : List (Int × ClientLB.LBEntry)) (s : ClientLB.SubmissionRec)
    (t : ServerLB.SubmissionS) :
    ClientLB.contribution { s with score := some 0 } = 10 ∧
    ClientLB.contribution { s with score := some 0 } =
      ClientLB.contribution { s with score := none } ∧
    ClientLB.addSubmission users acc { s with score := some 0 } =
      ClientLB.addSubmission users acc { s with score := none } ∧
    ServerLB.submissionPoints { t with score := some 0 } = 1 ∧
    ServerLB.submissionPoints { t with score := some 0 } =
      ServerLB.submissionPoints { t with score := none } := by
  refine ⟨by simp [ClientLB.contribution, jsOrInt], ?_, ?_, ?_, ?_⟩
  · simp [ClientLB.contribution, jsOrInt]
  · simp [ClientLB.addSubmission, ClientLB.contribution, jsOrInt]
  · simp [ServerLB.submissionPoints, jsOrInt]
  · simp [ServerLB.submissionPoints, jsOrInt]

/-- A pairwise relation that holds between any two elements holds on every
list. -/
theorem listPairwiseOfForall {β : Type} {R : β → β → Prop}
    (h : ∀ a b, R a b) : ∀ l : List β, l.Pairwise R
  | [] => List.Pairwise.nil
  | _ :: l => List.Pairwise.cons (fun _ _ => h _ _) (listPairwiseOfForall h l)

instance : IsTotal ClientLB.LBEntry ClientLB.scoreGe :=
  ⟨fun a b => le_total b.score a.score⟩

instance : IsTrans ClientLB.LBEntry ClientLB.scoreGe :=
  ⟨fun _ _ _ h1 h2 => le_trans h2 h1⟩

instance {α : Type} : IsTotal (ServerLB.EntryS α) ServerLB.scoreGeS :=
  ⟨fun a b => le_total b.score a.score⟩

instance {α : Type} : IsTrans (ServerLB.EntryS α) ServerLB.scoreGeS :=
  ⟨fun _ _ _ h1 h2 => le_trans h2 h1⟩

/-- C3 (amended): for a group with zero tasks neither aggregator issues a
submissions query; the client returns the empty list, while the server
returns every member with score 0. -/
theorem C3_zero_tasks_no_submission_query {α : Type}
    (groupId timeframe : String) (now monthlyStart : Int)
    (tasks : List ClientLB.TaskRec) (subs : List ClientLB.SubmissionRec)
    (users : List ClientLB.UserRec)
    (gid : Int) (members : List (ServerLB.MemberS α))
    (tasksS : List ServerLB.TaskS) (subsS : List ServerLB.SubmissionS)
    (hC : tasks.filter (fun t => t.groupId == groupId) = [])
    (hS : tasksS.filter (fun t => t.groupId == gid) = []) :
    ClientLB.fetchLeaderboardData groupId timeframe now monthlyStart tasks subs users
      = ([], 0) ∧
    ServerLB.getLeaderboard gid members tasksS subsS =
      (members.map (fun m => { user := m.user, score := 0 }), 0) := by
  constructor
  · simp [ClientLB.fetchLeaderboardData, hC]
  · simp [ServerLB.getLeaderboard, hS]

/-- C3 witness: the theorem applied to a taskless group on both variants. -/
theorem C3_witness :
    ClientLB.fetchLeaderboardData "g" "all" 0 0 [] [] [] = ([], 0) ∧
    ServerLB.getLeaderboard 1 [{ userId := 7, user := "u7" }] [] [] =
      ([{ user := "u7", score := 0 }], 0) :=
  C3_zero_tasks_no_submission_query "g" "all" 0 0 [] [] [] 1
    [{ userId := 7, user := "u7" }] [] [] rfl rfl

/-- C3 counterexample: the server variant on a taskless group with one member
returns a one-entry list, not the empty ranked list the claim states. -/
theorem C3_counterexample :
    (ServerLB.getLeaderboard 1 [{ userId := 7, user := "u7" }]
        ([] : List ServerLB.TaskS) []).1 = [{ user := "u7", score := 0 }] ∧
    (ServerLB.getLeaderboard 1 [{ userId := 7, user := "u7" }]
        ([] : List ServerLB.TaskS) []).1 ≠ [] := by
  decide

/-- C4: both aggregators always return a list whose scores are non-increasing
(the sort relation says every later entry's score is at most the earlier
one's). -/
theorem C4_output_sorted_descending {α : Type} (groupId timeframe : String)
    (now monthlyStart : Int) (tasks : List ClientLB.TaskRec)
    (subs : List ClientLB.SubmissionRec) (users : List ClientLB.UserRec)
    (gid : Int) (members : List (ServerLB.MemberS α))
    (tasksS : List ServerLB.TaskS) (subsS : List ServerLB.SubmissionS) :
    List.Sorted ClientLB.scoreGe
      (ClientLB.fetchLeaderboardData groupId timeframe now monthlyStart
        tasks subs users).1 ∧
    List.Sorted ServerLB.scoreGeS
      (ServerLB.getLeaderboard gid members tasksS subsS).1 := by
  constructor
  · unfold ClientLB.fetchLeaderboardData
    by_cases hE :
        ((tasks.filter (fun t => t.groupId == groupId)).map (fun t => t.id)).isEmpty
    · simp [hE]
    · simp only [hE, if_false, Bool.false_eq_true]
      exact List.sorted_insertionSort _ _
  · unfold ServerLB.getLeaderboard
    by_cases hE : (tasksS.filter (fun t => t.groupId == gid)).isEmpty
    · simp only [hE, if_true]
      rw [List.Sorted, List.pairwise_map]
      exact listPairwiseOfForall (fun _ _ => le_refl 0) members
    · simp only [hE, if_false, Bool.false_eq_true]
      exact List.sorted_insertionSort _ _

/-- Sum of the scores stored in the `userScores` record. -/
def valSum (acc : List (Int × ClientLB.LBEntry)) : Int :=
  (acc.map (fun p => p.2.score)).sum

/-- Bumping an existing key adds exactly the bump to the stored-score sum. -/
theorem valSum_bumpEntry : ∀ (acc : List (Int × ClientLB.LBEntry)) (uid d : Int),
    ClientLB.lookupEntry acc uid ≠ none →
    valSum (ClientLB.bumpEntry acc uid d) = valSum acc + d
  | [], _, _, h => absurd rfl h
  | (k, e) :: rest, uid, d, h => by
    by_cases hk : (k == uid) = true
    · simp [ClientLB.bumpEntry, hk, valSum]
      ring
    · have h' : ClientLB.lookupEntry rest uid ≠ none := by
        simpa [ClientLB.lookupEntry, hk] using h
      have ih := valSum_bumpEntry rest uid d h'
      simp only [ClientLB.bumpEntry, hk, if_false, Bool.false_eq_true, valSum,
        List.map_cons, List.sum_cons] at ih ⊢
      omega

/-- Processing one submission of a known user adds its contribution to the
stored-score sum. -/
theorem valSum_addSubmission (users : List ClientLB.UserRec)
    (acc : List (Int × ClientLB.LBEntry)) (s : ClientLB.SubmissionRec)
    (h : (ClientLB.lookupUser users s.userId).isSome = true) :
    valSum (ClientLB.addSubmission users acc s) =
      valSum acc + ClientLB.contribution s := by
  unfold ClientLB.addSubmission
  cases hle : ClientLB.lookupEntry acc s.userId with
  | some e =>
    simp only [hle]
    exact valSum_bumpEntry acc s.userId _ (by simp [hle])
  | none =>
    cases hu : ClientLB.lookupUser users s.userId with
    | none => rw [hu] at h; simp at h
    | some u =>
      simp only [hle, hu]
      simp [valSum]

/-- The submission fold adds the contributions of all processed submissions
when every submitter is a known user. -/
theorem valSum_foldl (users : List ClientLB.UserRec) :
    ∀ (subs : List ClientLB.SubmissionRec) (acc : List (Int × ClientLB.LBEntry)),
    (∀ s ∈ subs, (ClientLB.lookupUser users s.userId).isSome = true) →
    valSum (subs.foldl (ClientLB.addSubmission users) acc) =
      valSum acc + (subs.map ClientLB.contribution).sum
  | [], acc, _ => by simp
  | s :: rest, acc, h => by
    have hs := h s (List.mem_cons_self s rest)
    have hrest : ∀ x ∈ rest, (ClientLB.lookupUser users x.userId).isSome = true :=
      fun x hx => h x (List.mem_cons_of_mem s hx)
    simp only [List.foldl_cons, List.map_cons, List.sum_cons]
    rw [valSum_foldl users rest (ClientLB.addSubmission users acc s) hrest,
      valSum_addSubmission users acc s hs]
    ring

/-- Sorting permutes the entries, so it preserves the score sum. -/
theorem sumScores_insertionSort (l : List ClientLB.LBEntry) :
    ClientLB.sumScores (List.insertionSort ClientLB.scoreGe l) =
      ClientLB.sumScores l := by
  unfold ClientLB.sumScores
  exact List.Perm.sum_eq
    (List.Perm.map _ (List.perm_insertionSort ClientLB.scoreGe l))

/-- C2 (amended): when every fetched submission's user exists in the users
collection, the sum of the client aggregator's output scores equals the sum
of `score || 10` over exactly the submissions whose task is in the group and
whose timestamp satisfies the timeframe filter — regardless of status. -/
theorem C2_output_sum (groupId timeframe : String) (now monthlyStart : Int)
    (tasks : List ClientLB.TaskRec) (subs : List ClientLB.SubmissionRec)
    (users : List ClientLB.UserRec)
    (h : ∀ s ∈ subs.filter (ClientLB.submissionFetched timeframe now monthlyStart
          ((tasks.filter (fun t => t.groupId == groupId)).map (fun t => t.id))),
        (ClientLB.lookupUser users s.userId).isSome = true) :
    ClientLB.sumScores (ClientLB.fetchLeaderboardData groupId timeframe now
        monthlyStart tasks subs users).1 =
      ((subs.filter (ClientLB.submissionFetched timeframe now monthlyStart
          ((tasks.filter (fun t => t.groupId == groupId)).map (fun t => t.id)))).map
        ClientLB.contribution).sum := by
  unfold ClientLB.fetchLeaderboardData
  by_cases hE :
      ((tasks.filter (fun t => t.groupId == groupId)).map (fun t => t.id)).isEmpty
  · have hnil : ((tasks.filter (fun t => t.groupId == groupId)).map
        (fun t => t.id)) = [] := by
      rcases hcase : ((tasks.filter (fun t => t.groupId == groupId)).map
        (fun t => t.id)) with _ | ⟨a, l⟩
      · exact hcase
      · rw [hcase] at hE; simp [List.isEmpty] at hE
    rw [hnil]
    have hfil : subs.filter
        (ClientLB.submissionFetched timeframe now monthlyStart []) = [] := by
      refine List.filter_eq_nil_iff.mpr (fun s _ => ?_)
      unfold ClientLB.submissionFetched
      simp
    rw [hfil]
    simp [ClientLB.sumScores]
  · simp only [hE, if_false, Bool.false_eq_true]
    rw [sumScores_insertionSort]
    have hmap : ClientLB.sumScores ((ClientLB.processSubmissions users
        (subs.filter (ClientLB.submissionFetched timeframe now monthlyStart
          ((tasks.filter (fun t => t.groupId == groupId)).map (fun t => t.id))))).map
        Prod.snd) =
        valSum (ClientLB.processSubmissions users
          (subs.filter (ClientLB.submissionFetched timeframe now monthlyStart
            ((tasks.filter (fun t => t.groupId == groupId)).map (fun t => t.id))))) := by
      unfold ClientLB.sumScores valSum
      rw [List.map_map]
      rfl
    rw [hmap]
    unfold ClientLB.processSubmissions
    rw [valSum_foldl users _ [] h]
    simp [valSum]

/-- A concrete task of group `"g"`, for concrete aggregator runs. -/
def exTask : ClientLB.TaskRec := { id := "t1", groupId := "g" }

/-- A concrete pending submission with an explicit score, for concrete runs. -/
def exPendingSub : ClientLB.SubmissionRec :=
  { userId := 1, taskId := "t1", score := some 5, submittedAt := 0, status := "pending" }

/-- A concrete user record matching `exPendingSub`, for concrete runs. -/
def exUser : ClientLB.UserRec :=
  { id := 1, name := "Bob", email := "bob@example.com", username := none, avatar := none }

/-- C2 counterexample: one `pending` submission with score 5 is summed into
the client aggregator's output (total 5), although the sum over `completed`
submissions — which the claim says the output equals — is 0. -/
theorem C2_counterexample :
    ClientLB.sumScores
      (ClientLB.fetchLeaderboardData "g" "all" 0 0 [exTask] [exPendingSub] [exUser]).1 = 5 ∧
    (([exPendingSub].filter (fun s => s.status == "completed")).map
      ClientLB.contribution).sum = 0 := by
  decide

/-- C2 witness: the amended-sum theorem applied to a concrete run. -/
theorem C2_witness :
    ClientLB.sumScores
      (ClientLB.fetchLeaderboardData "g" "all" 0 0 [exTask] [exPendingSub] [exUser]).1 =
      (([exPendingSub].filter (ClientLB.submissionFetched "all" 0 0
          (([exTask].filter (fun t => t.groupId == "g")).map (fun t => t.id)))).map
        ClientLB.contribution).sum :=
  C2_output_sum "g" "all" 0 0 [exTask] [exPendingSub] [exUser] (by decide)

/-- The `userScores` record only holds keys whose user exists in the fetched
users collection. -/
def entriesOnlyKnown (users : List ClientLB.UserRec)
    (acc : List (Int × ClientLB.LBEntry)) : Prop :=
  ∀ uid : Int, ClientLB.lookupUser users uid = none →
    ClientLB.lookupEntry acc uid = none

/-- Bumping never introduces a key. -/
theorem lookupEntry_bumpEntry_none :
    ∀ (acc : List (Int × ClientLB.LBEntry)) (uid d k : Int),
    ClientLB.lookupEntry acc k = none →
    ClientLB.lookupEntry (ClientLB.bumpEntry acc uid d) k = none
  | [], _, _, _, _ => rfl
  | (k', e) :: rest, uid, d, k, h => by
    have hk' : (k' == k) = false := by
      by_cases hb : (k' == k) = true
      · rw [ClientLB.lookupEntry, if_pos hb] at h; exact absurd h (by simp)
      · simpa using hb
    have hrest : ClientLB.lookupEntry rest k = none := by
      rwa [ClientLB.lookupEntry, if_neg (by simp [hk'])] at h
    by_cases hu : (k' == uid) = true
    · simp only [ClientLB.bumpEntry, hu, if_true]
      rw [ClientLB.lookupEntry, if_neg (by simp [hk'])]
      exact hrest
    · simp only [ClientLB.bumpEntry, hu, if_false, Bool.false_eq_true]
      rw [ClientLB.lookupEntry, if_neg (by simp [hk'])]
      exact lookupEntry_bumpEntry_none rest uid d k hrest

/-- Appending an entry for a different key does not introduce key `k`. -/
theorem lookupEntry_append_none :
    ∀ (acc : List (Int × ClientLB.LBEntry)) (u : Int) (e : ClientLB.LBEntry) (k : Int),
    ClientLB.lookupEntry acc k = none → (u == k) = false →
    ClientLB.lookupEntry (acc ++ [(u, e)]) k = none
  | [], u, e, k, _, h2 => by
    simp only [List.nil_append]
    rw [ClientLB.lookupEntry, if_neg (by simp [h2])]
    rfl
  | (k', e') :: rest, u, e, k, h, h2 => by
    have hk' : (k' == k) = false := by
      by_cases hb : (k' == k) = true
      · rw [ClientLB.lookupEntry, if_pos hb] at h; exact absurd h (by simp)
      · simpa using hb
    have hrest : ClientLB.lookupEntry rest k = none := by
      rwa [ClientLB.lookupEntry, if_neg (by simp [hk'])] at h
    simp only [List.cons_append]
    rw [ClientLB.lookupEntry, if_neg (by simp [hk'])]
    exact lookupEntry_append_none rest u e k hrest h2

/-- One fold step preserves `entriesOnlyKnown`. -/
theorem addSubmission_onlyKnown (users : List ClientLB.UserRec)
    (acc : List (Int × ClientLB.LBEntry)) (s : ClientLB.SubmissionRec)
    (h : entriesOnlyKnown users acc) :
    entriesOnlyKnown users (ClientLB.addSubmission users acc s) := by
  intro k hk
  unfold ClientLB.addSubmission
  cases hle : ClientLB.lookupEntry acc s.userId with
  | some e =>
    simp only [hle]
    exact lookupEntry_bumpEntry_none acc s.userId _ k (h k hk)
  | none =>
    cases hu : ClientLB.lookupUser users s.userId with
    | none => simp only [hle, hu]; exact h k hk
    | some u =>
      simp only [hle, hu]
      have hneq : (s.userId == k) = false := by
        by_cases hb : (s.userId == k) = true
        · have : s.userId = k := by simpa using hb
          rw [this, hk] at hu
          exact absurd hu (by simp)
        · simpa using hb
      exact lookupEntry_append_none acc s.userId _ k (h k hk) hneq

/-- The whole fold preserves `entriesOnlyKnown`. -/
theorem foldl_onlyKnown (users : List ClientLB.UserRec) :
    ∀ (subs : List ClientLB.SubmissionRec) (acc : List (Int × ClientLB.LBEntry)),
    entriesOnlyKnown users acc →
    entriesOnlyKnown users (subs.foldl (ClientLB.addSubmission users) acc)
  | [], _, h => h
  | s :: rest, acc, h =>
    foldl_onlyKnown users rest _ (addSubmission_onlyKnown users acc s h)

/-- Submissions of unknown users are skipped by the fold. -/
theorem foldl_filter_known (users : List ClientLB.UserRec) :
    ∀ (subs : List ClientLB.SubmissionRec) (acc : List (Int × ClientLB.LBEntry)),
    entriesOnlyKnown users acc →
    subs.foldl (ClientLB.addSubmission users) acc =
      (subs.filter (fun s => (ClientLB.lookupUser users s.userId).isSome)).foldl
        (ClientLB.addSubmission users) acc
  | [], _, _ => rfl
  | s :: rest, acc, h => by
    cases hu : ClientLB.lookupUser users s.userId with
    | some u =>
      rw [List.filter_cons]
      simp only [hu, Option.isSome_some, if_true]
      simp only [List.foldl_cons]
      exact foldl_filter_known users rest (ClientLB.addSubmission users acc s)
        (addSubmission_onlyKnown users acc s h)
    | none =>
      have hacc : ClientLB.lookupEntry acc s.userId = none := h s.userId hu
      have hskip : ClientLB.addSubmission users acc s = acc := by
        unfold ClientLB.addSubmission
        simp only [hacc, hu]
      rw [List.filter_cons]
      simp only [hu, Option.isSome_none, Bool.false_eq_true, if_false]
      simp only [List.foldl_cons, hskip]
      exact foldl_filter_known users rest acc h

/-- C10: the client aggregation fold ignores every submission whose user id
has no record in the fetched users collection — the fold equals the fold over
only known-user submissions, and no entry is ever created for an unknown
user. -/
theorem C10_unknown_user_contributes_nothing (users : List ClientLB.UserRec)
    (subs : List ClientLB.SubmissionRec) (uid : Int) :
    ClientLB.processSubmissions users subs =
      ClientLB.processSubmissions users
        (subs.filter (fun s => (ClientLB.lookupUser users s.userId).isSome)) ∧
    (ClientLB.lookupUser users uid = none →
      ClientLB.lookupEntry (ClientLB.processSubmissions users subs) uid = none) := by
  have hempty : entriesOnlyKnown users [] := fun _ _ => rfl
  constructor
  · exact foldl_filter_known users subs [] hempty
  · exact fun hu => foldl_onlyKnown users subs [] hempty uid hu

/-- A submission by a user id absent from the users collection, for concrete
runs. -/
def orphanSub : ClientLB.SubmissionRec :=
  { userId := 3, taskId := "t9", score := none, submittedAt := 0, status := "completed" }

/-- C10 witness: with an empty users collection the orphan submission leaves
no entry, by the theorem. -/
theorem C10_witness :
    ClientLB.lookupEntry (ClientLB.processSubmissions [] [orphanSub]) 3 = none :=
  (C10_unknown_user_contributes_nothing [] [orphanSub] 3).2 (by decide)

/-- JS `error.message || "Failed to verify completion"` is never empty. -/
theorem jsOrStr_ne_empty (s d : String) (hd : d ≠ "") : jsOrStr s d ≠ "" := by
  unfold jsOrStr
  by_cases h : s = ""
  · rw [if_pos h]; exact hd
  · rw [if_neg h]; exact h

/-- When either service query fails, both revisions' `checkProblemStatus`
yield an error (their own guard error or the propagated one). -/
theorem checkProblemStatus_error_of_query_error (username slug : String)
    (resp : Except JsError UserProblemData) (recentResp : Except JsError RecentData)
    (e : JsError) (h : resp = .error e ∨ recentResp = .error e)
    (h1 : username ≠ "") (h2 : slug ≠ "") :
    (∃ e5, LC5.checkProblemStatus username slug resp recentResp = .error e5) ∧
    (∃ eC, LCC.checkProblemStatus username slug resp recentResp = .error eC) := by
  unfold LC5.checkProblemStatus LCC.checkProblemStatus
  cases resp with
  | error e' => simp [h1, h2]
  | ok d =>
    cases recentResp with
    | error e' => simp [h1, h2]
    | ok r =>
      exfalso
      rcases h with h | h <;> exact Except.noConfusion h

/-- C8: for every input where a service query fails, both revisions of
`verifyLeetCodeCompletion` return — rather than throw — a typed result with
`verified = false` and a non-empty error message. -/
theorem C8_errors_converted_to_results (username slug : String)
    (resp : Except JsError UserProblemData) (recentResp : Except JsError RecentData)
    (e : JsError) (h : resp = .error e ∨ recentResp = .error e) :
    (LC5.verifyLeetCodeCompletion username slug resp recentResp).verified = false ∧
    (∃ m, (LC5.verifyLeetCodeCompletion username slug resp recentResp).error =
        some m ∧ m ≠ "") ∧
    (LCC.verifyLeetCodeCompletion username slug resp recentResp).verified = false ∧
    (∃ m, (LCC.verifyLeetCodeCompletion username slug resp recentResp).error =
        some m ∧ m ≠ "") := by
  by_cases h1 : username = ""
  · unfold LC5.verifyLeetCodeCompletion LCC.verifyLeetCodeCompletion
    simp [h1]
  · by_cases h2 : slug = ""
    · unfold LC5.verifyLeetCodeCompletion LCC.verifyLeetCodeCompletion
      simp [h2]
    · obtain ⟨⟨e5, he5⟩, ⟨eC, heC⟩⟩ :=
        checkProblemStatus_error_of_query_error username slug resp recentResp e h h1 h2
      unfold LC5.verifyLeetCodeCompletion LCC.verifyLeetCodeCompletion
      simp only [h1, h2, he5, heC]
      refine ⟨by simp, ⟨jsOrStr e5.message "Failed to verify completion", ?_, ?_⟩,
        by simp, ⟨jsOrStr eC.message "Failed to verify completion", ?_, ?_⟩⟩
      · simp
      · exact jsOrStr_ne_empty _ _ (by decide)
      · simp
      · exact jsOrStr_ne_empty _ _ (by decide)

/-- C8 witness: the theorem applied to a failed first query. -/
theorem C8_witness :
    (LC5.verifyLeetCodeCompletion "alice123" "two-sum"
        (.error { message := "network down" })
        (.ok { recentSubmissionList := none })).verified = false ∧
    (∃ m, (LC5.verifyLeetCodeCompletion "alice123" "two-sum"
        (.error { message := "network down" })
        (.ok { recentSubmissionList := none })).error = some m ∧ m ≠ "") ∧
    (LCC.verifyLeetCodeCompletion "alice123" "two-sum"
        (.error { message := "network down" })
        (.ok { recentSubmissionList := none })).verified = false ∧
    (∃ m, (LCC.verifyLeetCodeCompletion "alice123" "two-sum"
        (.error { message := "network down" })
        (.ok { recentSubmissionList := none })).error = some m ∧ m ≠ "") :=
  C8_errors_converted_to_results "alice123" "two-sum"
    (.error { message := "network down" })
    (.ok { recentSubmissionList := none })
    { message := "network down" } (Or.inl rfl)
